import Mathlib

/-!
Shallow embedding of the SimPEG weighted L2 data misfit (`SimPEG/DataMisfit.py`)
and of the time-domain EM source and waveform classes (`SimPEG/EM/TDEM/SrcTDEM.py`),
together with theorems checking the natural-language specification of the
repository against this embedding.

Vectors are lists over a linear ordered field (rationals everywhere the code is
exercised concretely; the reals where the spec scenario needs the L2 norm of the
observed data).  Sparse matrices are lists of rows.  The deferred dask
computation graph of the misfit engine is modelled by direct evaluation, and
Python exceptions by an explicit error type returned through `Except`.
-/

namespace SimPEG

/-- Python exceptions raised by the embedded code. -/
inductive PyError where
  | assertionError (msg : String)
  | attributeError (msg : String)
  | typeError (msg : String)
  | indexError (msg : String)
  | keyError (msg : String)
  | notImplementedError (msg : String)
  | valueError (msg : String)
  deriving DecidableEq, Repr

instance {ε α : Type} [DecidableEq ε] [DecidableEq α] : DecidableEq (Except ε α)
  | .ok a, .ok b => decidable_of_iff (a = b) (by simp)
  | .ok _, .error _ => .isFalse (by simp)
  | .error _, .ok _ => .isFalse (by simp)
  | .error e, .error f => decidable_of_iff (e = f) (by simp)

variable {κ : Type} [LinearOrderedField κ] {φ : Type}

/-- Dot product of two vectors (`numpy.dot` / `da.dot` on 1-D arrays). -/
def dotV (v w : List κ) : κ := (List.zipWith (fun x y => x * y) v w).sum

/-- Sparse-matrix-times-vector product (`csr.dot(M, v)`): each row dotted with `v`. -/
def matVec (M : List (List κ)) (v : List κ) : List κ :=
  M.map (fun row => dotV row v)

/-- Scalar times vector, numpy broadcasting `c * v`. -/
def smulV (c : κ) (v : List κ) : List κ := v.map (fun x => c * x)

/-- Prepend the entries of `col` onto the rows of `M` (padding with fresh rows). -/
def consColumn : List κ → List (List κ) → List (List κ)
  | [], M => M
  | x :: xs, [] => [x] :: consColumn xs []
  | x :: xs, r :: rs => (x :: r) :: consColumn xs rs

/-- Matrix transpose (`.T` on a scipy sparse matrix). -/
def transposeM : List (List κ) → List (List κ)
  | [] => []
  | row :: rest => consColumn row (transposeM rest)

/-- Diagonal sparse matrix built from a vector (`SimPEG.Utils.sdiag`, an
external utility collaborator): row `i` is zero except entry `i`. -/
def sdiag : List κ → List (List κ)
  | [] => []
  | x :: xs => (x :: List.replicate xs.length 0) :: (sdiag xs).map (fun r => (0 : κ) :: r)

/-- Sum of squares of the entries of a vector. -/
def sumSq (v : List κ) : κ := (v.map (fun x => x ^ 2)).sum

theorem dotV_self (v : List κ) : dotV v v = sumSq v := by
  induction v with
  | nil => rfl
  | cons x xs ih => simp [dotV, sumSq, sq] at ih ⊢

theorem smulV_one (v : List κ) : smulV (1 : κ) v = v := by
  simp [smulV]

/-- The survey collaborator of `BaseDataMisfit`: observed data, data count,
optional survey-supplied standard deviation and floor, the residual function
`residual(m, f)`, and the `ispaired` flag.  `φ` is the type of fields objects. -/
structure SurveyData (κ : Type) (φ : Type) where
  dobs : List κ
  nD : Nat
  stdOpt : Option κ
  epsOpt : Option κ
  residual : List κ → φ → List κ
  ispaired : Bool

/-- The forward-problem collaborator: the fields solve and the (approximate)
Jacobian-vector and transpose-Jacobian-vector products. -/
structure ProbData (κ : Type) (φ : Type) where
  fields : List κ → φ
  Jvec_approx : List κ → List κ → φ → List κ
  Jtvec : List κ → List κ → φ → List κ
  Jtvec_approx : List κ → List κ → φ → List κ

/-- State of an `l2_DataMisfit` instance: the survey and problem handles, the
`std` and `eps` attributes fixed by `__init__`, the `scale` attribute
inherited from the objective-function base class (default 1), and the lazily
cached weighting matrix `_W`. -/
structure L2State (κ : Type) (φ : Type) where
  survey : SurveyData κ φ
  prob : ProbData κ φ
  std : κ
  eps : κ
  scale : κ
  cachedW : Option (List (List κ))

/-- The default weighting matrix of the `W` getter:
`Utils.sdiag(1/(abs(survey.dobs)*self.std+self.eps))`. -/
def Wdefault (st : L2State κ φ) : List (List κ) :=
  sdiag (st.survey.dobs.map (fun d => 1 / (|d| * st.std + st.eps)))

/-- The value produced by the `W` property getter: the cached `_W` when set,
otherwise the default diagonal weighting. -/
def Wget (st : L2State κ φ) : List (List κ) :=
  match st.cachedW with
  | some w => w
  | none => Wdefault st

/-- The `W` getter together with its caching side effect: on a cache miss the
computed default is stored in `_W`. -/
def Waccess (st : L2State κ φ) : List (List κ) × L2State κ φ :=
  match st.cachedW with
  | some w => (w, st)
  | none => (Wdefault st, { st with cachedW := some (Wdefault st) })

/-- `l2_DataMisfit.__call__(m, f=None)`: fields are obtained from the problem
when not supplied, the weighted residual `W r` is formed by a deferred sparse
product, and the forced value of the graph is `0.5 * dot(W r, W r)`. -/
def l2call (st : L2State κ φ) (m : List κ) (f : Option φ) : κ :=
  let fld := f.getD (st.prob.fields m)
  let vec := matVec (Wget st) (st.survey.residual m fld)
  (1 / 2) * dotV vec vec

/-- `l2_DataMisfit.deriv(m, f=None)`:
`w_d = W r`, `wtw_d = W.T (scale * w_d)`, returned through `prob.Jtvec`. -/
def l2deriv (st : L2State κ φ) (m : List κ) (f : Option φ) : List κ :=
  let fld := f.getD (st.prob.fields m)
  let w_d := matVec (Wget st) (st.survey.residual m fld)
  let wtw_d := matVec (transposeM (Wget st)) (smulV st.scale w_d)
  st.prob.Jtvec m wtw_d fld

/-- `l2_DataMisfit.deriv2(m, v, f=None)`: the approximate Jacobian-vector
product is weighted by `W`, re-weighted by `W.T`, and pushed through the
approximate transpose-Jacobian-vector product. -/
def l2deriv2 (st : L2State κ φ) (m v : List κ) (f : Option φ) : List κ :=
  let fld := f.getD (st.prob.fields m)
  let jtvec := st.prob.Jvec_approx m v fld
  let w_jtvec := matVec (Wget st) jtvec
  let wtw_jtvec := matVec (transposeM (Wget st)) w_jtvec
  st.prob.Jtvec_approx m wtw_jtvec fld

/-- Resolution of one replacement field of Python `str.format`: an all-digit
field name is an index into the positional argument tuple, any other name is
looked up among the keyword arguments; a missing positional index raises
IndexError and a missing keyword raises KeyError. -/
def digitsToNat (cs : List Char) : Nat :=
  cs.foldl (fun n c => n * 10 + (c.toNat - '0'.toNat)) 0

def resolveField (args : List String) (kwargs : List (String × String))
    (name : String) : Except PyError String :=
  if name.toList ≠ [] ∧ name.toList.all Char.isDigit then
    let i := digitsToNat name.toList
    match args.get? i with
    | some s => .ok s
    | none =>
        .error (.indexError ("Replacement index " ++ toString i ++
          " out of range for positional args tuple"))
  else
    match kwargs.lookup name with
    | some s => .ok s
    | none => .error (.keyError name)

/-- Worker for `pyFormat`, structurally recursive on a fuel bound. -/
def fmtAux (args : List String) (kwargs : List (String × String)) :
    Nat → List Char → Except PyError String
  | 0, _ => .error (.valueError "format fuel exhausted")
  | _, [] => .ok ""
  | fuel + 1, c :: rest =>
    if c = '\x7b' then
      let nameCs := rest.takeWhile (fun d => d ≠ '\x7d')
      let rest2 := rest.dropWhile (fun d => d ≠ '\x7d')
      match rest2 with
      | [] => .error (.valueError "Single brace encountered in format string")
      | _ :: tail =>
        match resolveField args kwargs (String.mk nameCs) with
        | .error err => .error err
        | .ok s =>
          match fmtAux args kwargs fuel tail with
          | .error err => .error err
          | .ok t => .ok (s ++ t)
    else
      match fmtAux args kwargs fuel rest with
      | .error err => .error err
      | .ok t => .ok (String.mk [c] ++ t)

/-- Python `template.format(*args, **kwargs)` restricted to the fragment the
`W` setter message uses: literal text and plain replacement fields. -/
def pyFormat (template : String) (args : List String)
    (kwargs : List (String × String)) : Except PyError String :=
  fmtAux args kwargs (template.toList.length + 1) template.toList

/-- The message template of the `W` setter assertion, verbatim from the
source.  Its last field is the positional index 1 (the source writes the
text val followed by a field holding 1, instead of a val1 keyword field). -/
def wShapeMsgTemplate : String :=
  "W must have shape ({nD},{nD}), not ({val0}, val{1})"

/-- The value assigned to `W`: a 1-D numpy vector or a 2-D matrix. -/
inductive PyArr (κ : Type) where
  | vec (v : List κ)
  | mat (m : List (List κ))

/-- The `W` property setter: a value with fewer than two dimensions is
promoted with `sdiag`; then the shape must equal `(nD, nD)` or the assert
fires.  Python evaluates the assert message expression only on failure, so a
`str.format` error raised while building the message propagates in place of
the AssertionError. -/
def l2setW (st : L2State κ φ) (value : PyArr κ) : Except PyError (L2State κ φ) :=
  let value2 := match value with
    | .vec v => sdiag v
    | .mat mm => mm
  let s0 := value2.length
  let s1 := (value2.headD []).length
  if s0 = st.survey.nD ∧ s1 = st.survey.nD then
    .ok { st with cachedW := some value2 }
  else
    match pyFormat wShapeMsgTemplate []
        [("nD", toString st.survey.nD), ("val0", toString s0),
         ("val1", toString s1)] with
    | .error err => .error err
    | .ok msg => .error (.assertionError msg)

/-- `eps_factor`, the class attribute multiplying the data norm. -/
def eps_factor : κ := 1 / 100000

/-- `l2_DataMisfit.__init__(survey)`: the survey must be paired (assert in
`BaseDataMisfit.__init__`); `std` and `eps` are taken from the survey when
present, otherwise a warning is printed and the defaults 0.05 and
`eps_factor * norm(dobs, 2)` are used.  `norm2` stands for the external
`np.linalg.norm` collaborator.  Returns the new state and the printed
warnings. -/
def l2init (norm2 : List κ → κ) (survey : SurveyData κ φ) (prob : ProbData κ φ) :
    Except PyError (L2State κ φ × List String) :=
  if survey.ispaired = false then
    .error (.assertionError "The survey must be paired to a problem.")
  else
    let stdWarn : List String := match survey.stdOpt with
      | none => ["SimPEG.DataMisfit.l2_DataMisfit assigning default std of 5%"]
      | some _ => []
    let stdv := (survey.stdOpt).getD (5 / 100)
    let epsWarn : List String := match survey.epsOpt with
      | none => ["SimPEG.DataMisfit.l2_DataMisfit assigning default eps of 1e-5 * ||dobs||"]
      | some _ => []
    let epsv := (survey.epsOpt).getD (norm2 survey.dobs * eps_factor)
    .ok ({ survey := survey, prob := prob, std := stdv, eps := epsv,
           scale := 1, cachedW := none },
         stdWarn ++ epsWarn)

/-- A source waveform (`SrcTDEM.py`): step-off, raw with a user-supplied
time function, or the triangular stub.  `offTime` and the initial-fields flag
are the configuration their constructors intend to store. -/
inductive Waveform (κ : Type) where
  | stepOff (offTime : κ)
  | raw (offTime : κ) (hasInitFlag : Bool) (waveFct : κ → κ)
  | triangular (offTime : κ)

/-- `hasInitialFields`: true for step-off and triangular (their constructors
pass `hasInitialFields=True`), the stored flag for raw (default false). -/
def Waveform.hasInitialFields : Waveform κ → Bool
  | .stepOff _ => true
  | .raw _ b _ => b
  | .triangular _ => true

/-- `eval(time)`: step-off returns 0, raw applies the user function, and
triangular raises NotImplementedError with its descriptive message. -/
def Waveform.eval : Waveform κ → κ → Except PyError κ
  | .stepOff _, _ => .ok 0
  | .raw _ _ f, t => .ok (f t)
  | .triangular _, _ =>
      .error (.notImplementedError
        "TriangularWaveform has not been implemented, you should write it!")

/-- An argument value in a Python call. -/
inductive PyArgVal (κ : Type) where
  | num (x : κ)
  | boolean (b : Bool)
  deriving DecidableEq

/-- `BaseWaveform.__init__(self, **kwargs)` viewed through Python call
binding: the signature accepts no positional parameter besides `self`, so any
positional argument raises TypeError before the body runs; otherwise the
keyword arguments are handed to `Utils.setKwargs` (returned here as the
applied configuration). -/
def baseWaveformInitCall (positional : List (PyArgVal κ))
    (kwargs : List (String × PyArgVal κ)) :
    Except PyError (List (String × PyArgVal κ)) :=
  match positional with
  | [] => .ok kwargs
  | ps@(_ :: _) =>
      .error (.typeError ("__init__() takes 1 positional argument but " ++
        toString (ps.length + 1) ++ " were given"))

/-- `TriangularWaveform.__init__(self, offTime=0.)`: forwards `offTime` as a
positional argument to `BaseWaveform.__init__`, together with the keyword
`hasInitialFields=True`. -/
def triangularWaveformInitCall (offTime : κ) :
    Except PyError (List (String × PyArgVal κ)) :=
  baseWaveformInitCall [.num offTime] [("hasInitialFields", .boolean true)]

/-- The TDEM source classes defined in `SrcTDEM.py`. -/
inductive SrcClass where
  | baseTDEMSrc | magDipole | circularLoop | lineCurrent
  deriving DecidableEq

/-- The Python classes a value assigned to `waveform` can belong to in this
model: the waveform classes of `SrcTDEM.py`, plus a waveform class defined
outside this module that does not derive from this `BaseWaveform` (such an
object carries its own pairing method but fails the isinstance test). -/
inductive WaveClass where
  | baseWaveform | stepOffWaveform | rawWaveform | triangularWaveform
  | foreignWaveform
  deriving DecidableEq

/-- Python subclass test between the modelled waveform classes. -/
def isSubclassOf (c d : WaveClass) : Bool :=
  c == d || (d == .baseWaveform && !(c == .foreignWaveform))

/-- `waveformPair`, declared on `BaseTDEMSrc` as `BaseWaveform` and inherited
unchanged by every variant in the file. -/
def waveformPair : SrcClass → WaveClass := fun _ => .baseWaveform

/-- `BaseWaveform._assertMatchesPair(pair)`: asserts `isinstance(self, pair)`.
The failure message is the literal source string: its percent placeholder is
not a `str.format` replacement field, so `.format(pair.__name__)` returns the
string unchanged. -/
def assertMatchesPair (cls pair : WaveClass) : Except PyError Unit :=
  if isSubclassOf cls pair then .ok ()
  else .error (.assertionError
    "Waveform object must be an instance of a %s BaseWaveform class.")

/-- Modelled from the spec: the base class `BaseEMSrc` (and its ancestors),
which is code of this repository that is not in `SrcTDEM.py` or
`DataMisfit.py`.  The spec describes a source as binding a receiver list, a
waveform, a location and physical parameters; it lists no attribute named
`StepOffWaveform` on sources, so attribute lookup for that name on the base
classes fails. -/
def baseEMSrcHasStepOffAttr : Bool := false

/-- Lookup of the attribute name `StepOffWaveform` on a source instance: no
class body in `SrcTDEM.py` binds that name, so the lookup falls through to
the base classes, where it also fails. -/
def srcHasStepOffAttr (_c : SrcClass) : Bool := baseEMSrcHasStepOffAttr

/-- Whether the name `waveform` on instances of a class resolves to the
checking property of `BaseTDEMSrc`.  `LineCurrent` rebinds `waveform = None`
in its class body, shadowing the inherited property descriptor, so
assignment on a `LineCurrent` instance is a plain instance-attribute store. -/
def waveformIsProperty : SrcClass → Bool
  | .lineCurrent => false
  | _ => true

/-- A waveform object as stored on a source: its class and an identity. -/
structure WaveObj where
  cls : WaveClass
  objId : Nat
  deriving DecidableEq

/-- The assignment `src.waveform = val` on an instance of class `c` whose
currently stored waveform is `cur`.  Through the `BaseTDEMSrc` property
setter, a first assignment is pairing-checked and stored, while a
re-assignment evaluates `self.StepOffWaveform(val)`, whose attribute lookup
fails.  When the property is shadowed by a plain class attribute
(`LineCurrent`), the assignment is an ordinary store with no check. -/
def setWaveformAttr (c : SrcClass) (cur : Option WaveObj) (val : WaveObj) :
    Except PyError (Option WaveObj) :=
  if waveformIsProperty c then
    match cur with
    | none =>
      match assertMatchesPair val.cls (waveformPair c) with
      | .ok _ => .ok (some val)
      | .error err => .error err
    | some _ =>
      if srcHasStepOffAttr c then
        .ok (some { cls := .stepOffWaveform, objId := val.objId })
      else
        .error (.attributeError "object has no attribute StepOffWaveform")
  else
    .ok (some val)

/-- Formulation tag of the forward problem. -/
inductive Formulation where
  | EB | HJ
  deriving DecidableEq

/-- Field-type tag of the forward problem. -/
inductive FieldType where
  | b | e | h | j
  deriving DecidableEq

/-- The forward-problem collaborator seen by a TDEM source: discrete curl,
face inner-product matrix, formulation and field-type tags, the time-step
schedule, edge and face grids, and the mesh type. -/
structure TDEMProb (κ : Type) where
  edgeCurl : List (List κ)
  MfMui : List (List κ)
  formulation : Formulation
  fieldType : FieldType
  timeSteps : List κ
  gridEx : List (List κ)
  gridEy : List (List κ)
  gridEz : List (List κ)
  gridFx : List (List κ)
  gridFy : List (List κ)
  gridFz : List (List κ)
  meshType : String
  isSymmetric : Bool

/-- A `MagDipole` source.  A `CircularLoop` differs only in the external
vector-potential function `_srcFct` it supplies
(`MagneticLoopVectorPotential` instead of `MagneticDipoleVectorPotential`),
so both variants share this state, with `srcFct` the abstract collaborator. -/
structure DipoleSrc (κ : Type) where
  waveform : Waveform κ
  mu : κ
  srcFct : List (List κ) → Char → List κ

/-- `MagDipole._bSrc(prob)`: evaluate the vector potential on the edge (EB)
or face (HJ) grids and apply the discrete curl (transposed under HJ); a
cylindrical mesh uses only the `y` component and must be symmetric. -/
def bSrc (src : DipoleSrc κ) (prob : TDEMProb κ) : Except PyError (List κ) :=
  let gridX := match prob.formulation with | .EB => prob.gridEx | .HJ => prob.gridFx
  let gridY := match prob.formulation with | .EB => prob.gridEy | .HJ => prob.gridFy
  let gridZ := match prob.formulation with | .EB => prob.gridEz | .HJ => prob.gridFz
  let C := match prob.formulation with
    | .EB => prob.edgeCurl
    | .HJ => transposeM prob.edgeCurl
  if prob.meshType = "CYL" then
    if prob.isSymmetric = false then
      .error (.notImplementedError "Non-symmetric cyl mesh not implemented yet!")
    else
      .ok (matVec C (src.srcFct gridY 'y'))
  else
    .ok (matVec C (src.srcFct gridX 'x' ++ src.srcFct gridY 'y' ++ src.srcFct gridZ 'z'))

/-- The value returned by `s_e`: the `Zero` sentinel, a vector, or the Python
`None` produced when control falls off the end of the method. -/
inductive SEVal (κ : Type) where
  | zero
  | vec (v : List κ)
  | pynone
  deriving DecidableEq

/-- `MagDipole.s_e(prob, time)` (inherited unchanged by `CircularLoop`). -/
def s_e (src : DipoleSrc κ) (prob : TDEMProb κ) (time : κ) :
    Except PyError (SEVal κ) :=
  match bSrc src prob with
  | .error err => .error err
  | .ok bv =>
    match prob.formulation with
    | .EB =>
      if src.waveform.hasInitialFields = true ∧ time < prob.timeSteps.getD 1 0 then
        if prob.fieldType = .b then .ok .zero
        else if prob.fieldType = .e then
          .ok (.vec (matVec (transposeM prob.edgeCurl) (matVec prob.MfMui bv)))
        else .ok .pynone
      else
        match src.waveform.eval time with
        | .error err => .error err
        | .ok amp =>
            .ok (.vec (smulV amp
              (matVec (transposeM prob.edgeCurl) (matVec prob.MfMui bv))))
    | .HJ =>
      let hvec := smulV (1 / src.mu) bv
      if src.waveform.hasInitialFields = true ∧ time < prob.timeSteps.getD 1 0 then
        if prob.fieldType = .h then .ok .zero
        else if prob.fieldType = .j then .ok (.vec (matVec prob.edgeCurl hvec))
        else .ok .pynone
      else
        match src.waveform.eval time with
        | .error err => .error err
        | .ok amp => .ok (.vec (smulV amp (matVec prob.edgeCurl hvec)))

/-- A one-datum survey fixture over the rationals. -/
@[reducible] def survey1 : SurveyData ℚ Unit :=
  { dobs := [1], nD := 1, stdOpt := none, epsOpt := none,
    residual := fun _ _ => [2], ispaired := true }

/-- A trivial forward-problem fixture whose products are the identity. -/
@[reducible] def prob1 : ProbData ℚ Unit :=
  { fields := fun _ => (), Jvec_approx := fun _ v _ => v,
    Jtvec := fun _ v _ => v, Jtvec_approx := fun _ v _ => v }

/-- A forward-problem fixture whose products are the 1-by-1 Jacobian `[[1]]`. -/
@[reducible] def prob2 : ProbData ℚ Unit :=
  { fields := fun _ => (),
    Jvec_approx := fun _ v _ => matVec [[1]] v,
    Jtvec := fun _ v _ => matVec (transposeM [[1]]) v,
    Jtvec_approx := fun _ v _ => matVec (transposeM [[1]]) v }

/-- A misfit-state fixture with an explicitly set diagonal weighting. -/
@[reducible] def state1 : L2State ℚ Unit :=
  { survey := survey1, prob := prob1, std := 5 / 100, eps := 1, scale := 1,
    cachedW := some (sdiag [3]) }

/-- As `state1` but over the matrix-product problem fixture. -/
@[reducible] def state3 : L2State ℚ Unit :=
  { survey := survey1, prob := prob2, std := 5 / 100, eps := 1, scale := 1,
    cachedW := some (sdiag [3]) }

/-- A misfit-state fixture with no cached weighting matrix. -/
@[reducible] def state4 : L2State ℚ Unit :=
  { survey := survey1, prob := prob1, std := 5 / 100, eps := 1, scale := 1,
    cachedW := none }

/-- A two-datum survey fixture for the `W` setter. -/
@[reducible] def survey2 : SurveyData ℚ Unit :=
  { dobs := [1, 2], nD := 2, stdOpt := some (5 / 100), epsOpt := some 1,
    residual := fun _ _ => [0, 0], ispaired := true }

/-- A misfit-state fixture over `survey2`. -/
@[reducible] def state2 : L2State ℚ Unit :=
  { survey := survey2, prob := prob1, std := 5 / 100, eps := 1, scale := 1,
    cachedW := some [[1, 0], [0, 1]] }

/-- The real L2 norm `np.linalg.norm(v, 2)` (external numpy collaborator). -/
noncomputable def l2normR (v : List ℝ) : ℝ := Real.sqrt (sumSq v)

/-- The spec scenario survey: `dobs = [1.0, 2.0]`, no survey-supplied `std`
or `eps`, and the residual fixed at `[0.1, -0.2]`. -/
noncomputable def scenarioSurvey : SurveyData ℝ Unit :=
  { dobs := [1, 2], nD := 2, stdOpt := none, epsOpt := none,
    residual := fun _ _ => [1 / 10, -(2 / 10)], ispaired := true }

/-- The forward-problem fixture of the scenario (its products are unused). -/
noncomputable def scenarioProb : ProbData ℝ Unit :=
  { fields := fun _ => (), Jvec_approx := fun _ v _ => v,
    Jtvec := fun _ v _ => v, Jtvec_approx := fun _ v _ => v }

/-- The `l2_DataMisfit` state `__init__` builds for the scenario survey with
defaulted `std` and `eps`. -/
noncomputable def scenarioState : L2State ℝ Unit :=
  { survey := scenarioSurvey, prob := scenarioProb, std := 5 / 100,
    eps := l2normR scenarioSurvey.dobs * eps_factor, scale := 1,
    cachedW := none }

/-- The misfit value of the spec scenario: residual `[0.1, -0.2]` under the
default weighting built from `dobs = [1, 2]`. -/
noncomputable def scenarioMisfit : ℝ := l2call scenarioState [] (some ())

theorem scenario_norm : l2normR scenarioSurvey.dobs = Real.sqrt 5 := by
  have h : sumSq (scenarioSurvey.dobs) = (5 : ℝ) := by
    norm_num [scenarioSurvey, sumSq]
  rw [l2normR, h]

theorem scenario_init :
    l2init l2normR scenarioSurvey scenarioProb =
      .ok (scenarioState,
        ["SimPEG.DataMisfit.l2_DataMisfit assigning default std of 5%",
         "SimPEG.DataMisfit.l2_DataMisfit assigning default eps of 1e-5 * ||dobs||"]) := rfl

theorem scenarioMisfit_eq :
    scenarioMisfit =
      (1 / 2) * ((1 / (5 / 100 + Real.sqrt 5 * eps_factor) * (1 / 10)) ^ 2 +
        (1 / (1 / 10 + Real.sqrt 5 * eps_factor) * (2 / 10)) ^ 2) := by
  have h : l2normR [(1 : ℝ), 2] = Real.sqrt 5 := by
    have h0 := scenario_norm
    simpa [scenarioSurvey] using h0
  simp only [scenarioMisfit, l2call, Option.getD, Wget, scenarioState, Wdefault,
    scenarioSurvey, sdiag, List.map, matVec, dotV, List.zipWith, List.sum,
    List.length, List.replicate]
  norm_num [h]
  ring_nf

theorem sqrt5_gt : (2236 / 1000 : ℝ) < Real.sqrt 5 :=
  (Real.lt_sqrt (by norm_num)).mpr (by norm_num)

theorem sqrt5_lt : Real.sqrt 5 < 22361 / 10000 :=
  (Real.sqrt_lt' (by norm_num)).mpr (by norm_num)

theorem scenarioMisfit_lb : 3997 / 1000 < scenarioMisfit := by
  rw [scenarioMisfit_eq]
  have hE1 : (2236 / 100000000 : ℝ) < Real.sqrt 5 * eps_factor := by
    have := sqrt5_gt
    unfold eps_factor
    nlinarith
  have hE2 : Real.sqrt 5 * eps_factor < 22361 / 1000000000 := by
    have := sqrt5_lt
    unfold eps_factor
    nlinarith
  have t1 : ((1 : ℝ) / (5 / 100 + 22361 / 1000000000) * (1 / 10)) ≤
      1 / (5 / 100 + Real.sqrt 5 * eps_factor) * (1 / 10) := by
    gcongr
  have t2 : ((1 : ℝ) / (1 / 10 + 22361 / 1000000000) * (2 / 10)) ≤
      1 / (1 / 10 + Real.sqrt 5 * eps_factor) * (2 / 10) := by
    gcongr
  have t1sq := pow_le_pow_left₀ (by positivity) t1 2
  have t2sq := pow_le_pow_left₀ (by positivity) t2 2
  have hfin : (3997 / 1000 : ℝ) <
      (1 / 2) * (((1 : ℝ) / (5 / 100 + 22361 / 1000000000) * (1 / 10)) ^ 2 +
        ((1 : ℝ) / (1 / 10 + 22361 / 1000000000) * (2 / 10)) ^ 2) := by
    norm_num
  linarith

theorem scenarioMisfit_ub : scenarioMisfit < 3998 / 1000 := by
  rw [scenarioMisfit_eq]
  have hE1 : (2236 / 100000000 : ℝ) < Real.sqrt 5 * eps_factor := by
    have := sqrt5_gt
    unfold eps_factor
    nlinarith
  have t1 : (1 / (5 / 100 + Real.sqrt 5 * eps_factor) * (1 / 10) : ℝ) ≤
      (1 : ℝ) / (5 / 100 + 2236 / 100000000) * (1 / 10) := by
    gcongr
  have t2 : (1 / (1 / 10 + Real.sqrt 5 * eps_factor) * (2 / 10) : ℝ) ≤
      (1 : ℝ) / (1 / 10 + 2236 / 100000000) * (2 / 10) := by
    gcongr
  have hp1 : (0 : ℝ) ≤ 1 / (5 / 100 + Real.sqrt 5 * eps_factor) * (1 / 10) := by
    have : (0 : ℝ) < 5 / 100 + Real.sqrt 5 * eps_factor := by linarith
    positivity
  have hp2 : (0 : ℝ) ≤ 1 / (1 / 10 + Real.sqrt 5 * eps_factor) * (2 / 10) := by
    have : (0 : ℝ) < 1 / 10 + Real.sqrt 5 * eps_factor := by linarith
    positivity
  have t1sq := pow_le_pow_left₀ hp1 t1 2
  have t2sq := pow_le_pow_left₀ hp2 t2 2
  have hfin : (1 / 2) * (((1 : ℝ) / (5 / 100 + 2236 / 100000000) * (1 / 10)) ^ 2 +
      ((1 : ℝ) / (1 / 10 + 2236 / 100000000) * (2 / 10)) ^ 2) < 3998 / 1000 := by
    norm_num
  linarith

/-- A step-off-driven magnetic dipole fixture with permeability 2. -/
@[reducible] def dsrc0 : DipoleSrc ℚ :=
  { waveform := .stepOff 0, mu := 2, srcFct := fun _ _ => [1] }

/-- An EB forward-problem fixture with 1-by-1 operators, field type `e`,
and time steps `[0, 1/2]`. -/
@[reducible] def tprob0 : TDEMProb ℚ :=
  { edgeCurl := [[1]], MfMui := [[2]], formulation := .EB, fieldType := .e,
    timeSteps := [0, 1 / 2], gridEx := [], gridEy := [], gridEz := [],
    gridFx := [], gridFy := [], gridFz := [], meshType := "TENSOR",
    isSymmetric := true }

/-- As `tprob0` but under the HJ formulation with field type `j`. -/
@[reducible] def tprobHJ : TDEMProb ℚ :=
  { tprob0 with formulation := .HJ, fieldType := .j }

/-- Claim C1: `__call__(m, f)` is half the weighted residual dotted with
itself, and for a square diagonal weighting with positive entries it equals
half the sum of the squared entries of `W r`. -/
theorem C1_call_half_weighted_normSq {φ : Type}
    (st : L2State ℚ φ) (m : List ℚ) (f : φ) :
    l2call st m (some f) =
      (1 / 2) * dotV (matVec (Wget st) (st.survey.residual m f))
        (matVec (Wget st) (st.survey.residual m f)) ∧
    (∀ w r : List ℚ, st.cachedW = some (sdiag w) →
      st.survey.residual m f = r → (∀ x ∈ w, 0 < x) → r.length = w.length →
      l2call st m (some f) = (1 / 2) * sumSq (matVec (sdiag w) r)) := by
  refine ⟨rfl, ?_⟩
  intro w r hW hr _ _
  simp [l2call, Wget, hW, hr, dotV_self]

theorem C1_witness :
    (∀ x ∈ ([3] : List ℚ), 0 < x) ∧
    ([2] : List ℚ).length = ([3] : List ℚ).length ∧
    l2call state1 [] (some ()) = (1 / 2) * sumSq (matVec (sdiag [3]) [2]) :=
  ⟨by decide, rfl,
   (C1_call_half_weighted_normSq state1 [] ()).2 [3] [2] rfl rfl (by decide) rfl⟩

/-- Claim C2: `deriv(m, f)` is `Jtvec` applied to `W.T (scale * (W r))`, and
with the default `scale = 1` and `Jtvec` the transpose-Jacobian product it is
the gradient `J.T W.T W r`. -/
theorem C2_deriv_gradient {φ : Type} (st : L2State ℚ φ) (m : List ℚ) (f : φ) :
    l2deriv st m (some f) =
      st.prob.Jtvec m
        (matVec (transposeM (Wget st))
          (smulV st.scale (matVec (Wget st) (st.survey.residual m f)))) f ∧
    (∀ J : List (List ℚ), st.scale = 1 →
      st.prob.Jtvec = (fun _ v _ => matVec (transposeM J) v) →
      l2deriv st m (some f) =
        matVec (transposeM J)
          (matVec (transposeM (Wget st))
            (matVec (Wget st) (st.survey.residual m f)))) := by
  refine ⟨rfl, ?_⟩
  intro J hscale hJ
  simp [l2deriv, hscale, hJ, smulV_one]

theorem C2_witness :
    state3.scale = 1 ∧
    state3.prob.Jtvec = (fun _ v _ => matVec (transposeM [[1]]) v) ∧
    l2deriv state3 [] (some ()) =
      matVec (transposeM [[1]])
        (matVec (transposeM (Wget state3))
          (matVec (Wget state3) (state3.survey.residual [] ()))) :=
  ⟨rfl, rfl, (C2_deriv_gradient state3 [] ()).2 [[1]] rfl rfl⟩

/-- Claim C3: `deriv2(m, v, f)` is `Jtvec_approx` applied to
`W.T (W (Jvec_approx v))`, the Gauss-Newton product `J.T W.T W J v` when the
approximate products are a matrix and its transpose. -/
theorem C3_deriv2_gauss_newton {φ : Type}
    (st : L2State ℚ φ) (m v : List ℚ) (f : φ) :
    l2deriv2 st m v (some f) =
      st.prob.Jtvec_approx m
        (matVec (transposeM (Wget st))
          (matVec (Wget st) (st.prob.Jvec_approx m v f))) f ∧
    (∀ J : List (List ℚ),
      st.prob.Jvec_approx = (fun _ u _ => matVec J u) →
      st.prob.Jtvec_approx = (fun _ u _ => matVec (transposeM J) u) →
      l2deriv2 st m v (some f) =
        matVec (transposeM J)
          (matVec (transposeM (Wget st)) (matVec (Wget st) (matVec J v)))) := by
  refine ⟨rfl, ?_⟩
  intro J h1 h2
  simp [l2deriv2, h1, h2]

theorem C3_witness :
    state3.prob.Jvec_approx = (fun _ u _ => matVec [[1]] u) ∧
    state3.prob.Jtvec_approx = (fun _ u _ => matVec (transposeM [[1]]) u) ∧
    l2deriv2 state3 [] [5] (some ()) =
      matVec (transposeM [[1]])
        (matVec (transposeM (Wget state3))
          (matVec (Wget state3) (matVec [[1]] [5]))) :=
  ⟨rfl, rfl, (C3_deriv2_gauss_newton state3 [] [5] ()).2 [[1]] rfl rfl⟩

/-- Claim C4: for a magnetic dipole or circular loop source, `s_e` returns at
the first post-initial step (initial fields present) the Zero sentinel for
field types `b` (EB) and `h` (HJ), the curl-transform `C.T (MfMui b)` for
field type `e` and `C (b / mu)` for field type `j`; for all other cases it
returns the same curl-transform scaled by `waveform.eval(time)`. -/
theorem C4_s_e_cases (src : DipoleSrc ℚ) (prob : TDEMProb ℚ)
    (t : ℚ) (bv : List ℚ) (hb : bSrc src prob = .ok bv) :
    (prob.formulation = .EB → src.waveform.hasInitialFields = true →
      t < prob.timeSteps.getD 1 0 → prob.fieldType = .b →
      s_e src prob t = .ok .zero) ∧
    (prob.formulation = .EB → src.waveform.hasInitialFields = true →
      t < prob.timeSteps.getD 1 0 → prob.fieldType = .e →
      s_e src prob t =
        .ok (.vec (matVec (transposeM prob.edgeCurl) (matVec prob.MfMui bv)))) ∧
    (prob.formulation = .HJ → src.waveform.hasInitialFields = true →
      t < prob.timeSteps.getD 1 0 → prob.fieldType = .h →
      s_e src prob t = .ok .zero) ∧
    (prob.formulation = .HJ → src.waveform.hasInitialFields = true →
      t < prob.timeSteps.getD 1 0 → prob.fieldType = .j →
      s_e src prob t =
        .ok (.vec (matVec prob.edgeCurl (smulV (1 / src.mu) bv)))) ∧
    (∀ amp : ℚ, prob.formulation = .EB →
      ¬ (src.waveform.hasInitialFields = true ∧ t < prob.timeSteps.getD 1 0) →
      src.waveform.eval t = .ok amp →
      s_e src prob t =
        .ok (.vec (smulV amp
          (matVec (transposeM prob.edgeCurl) (matVec prob.MfMui bv))))) ∧
    (∀ amp : ℚ, prob.formulation = .HJ →
      ¬ (src.waveform.hasInitialFields = true ∧ t < prob.timeSteps.getD 1 0) →
      src.waveform.eval t = .ok amp →
      s_e src prob t =
        .ok (.vec (smulV amp (matVec prob.edgeCurl (smulV (1 / src.mu) bv))))) := by
  have hgd : ∀ l : List ℚ, l.getD 1 0 = l[1]?.getD 0 := fun l => List.getD_eq_getElem?_getD l 1 0
  refine ⟨?_, ?_, ?_, ?_, ?_, ?_⟩
  · intro hf hi ht hft
    rw [hgd] at ht
    simp [s_e, hb, hf, hi, ht, hft]
  · intro hf hi ht hft
    rw [hgd] at ht
    simp [s_e, hb, hf, hi, ht, hft]
  · intro hf hi ht hft
    rw [hgd] at ht
    simp [s_e, hb, hf, hi, ht, hft]
  · intro hf hi ht hft
    rw [hgd] at ht
    simp [s_e, hb, hf, hi, ht, hft]
  · intro amp hf hni heval
    rw [hgd] at hni
    simp [s_e, hb, hf, heval]
    intro hi ht
    exact absurd ⟨hi, ht⟩ hni
  · intro amp hf hni heval
    rw [hgd] at hni
    simp [s_e, hb, hf, heval]
    intro hi ht
    exact absurd ⟨hi, ht⟩ hni

theorem C4_witness :
    bSrc dsrc0 tprob0 = .ok [1] ∧
    tprob0.formulation = .EB ∧
    dsrc0.waveform.hasInitialFields = true ∧
    (0 : ℚ) < tprob0.timeSteps.getD 1 0 ∧
    tprob0.fieldType = .e ∧
    s_e dsrc0 tprob0 0 =
      .ok (.vec (matVec (transposeM tprob0.edgeCurl) (matVec tprob0.MfMui [1]))) ∧
    bSrc dsrc0 tprobHJ = .ok [1] ∧
    ¬ (dsrc0.waveform.hasInitialFields = true ∧
        (1 : ℚ) < tprobHJ.timeSteps.getD 1 0) ∧
    dsrc0.waveform.eval 1 = .ok 0 ∧
    s_e dsrc0 tprobHJ 1 =
      .ok (.vec (smulV 0 (matVec tprobHJ.edgeCurl (smulV (1 / dsrc0.mu) [1])))) :=
by
  have hb0 : bSrc dsrc0 tprob0 = .ok [1] := by
    norm_num [bSrc, dsrc0, tprob0, matVec, dotV]
  have hbHJ : bSrc dsrc0 tprobHJ = .ok [1] := by
    norm_num [bSrc, dsrc0, tprob0, tprobHJ, matVec, dotV, transposeM, consColumn]
  have ht0 : (0 : ℚ) < tprob0.timeSteps.getD 1 0 := by norm_num [tprob0]
  have hni : ¬ (dsrc0.waveform.hasInitialFields = true ∧
      (1 : ℚ) < tprobHJ.timeSteps.getD 1 0) := by
    norm_num [dsrc0, tprob0, tprobHJ, Waveform.hasInitialFields]
  have hev : dsrc0.waveform.eval 1 = .ok 0 := rfl
  exact ⟨hb0, rfl, rfl, ht0, rfl,
    (C4_s_e_cases dsrc0 tprob0 0 [1] hb0).2.1 rfl rfl ht0 rfl,
    hbHJ, hni, hev,
    (C4_s_e_cases dsrc0 tprobHJ 1 [1] hbHJ).2.2.2.2.2 0 rfl hni hev⟩

/-- The error component of an `Except` value, when it is an error. -/
def exceptErr {ε α : Type} : Except ε α → Option ε
  | .error e => some e
  | .ok _ => none

theorem exceptErr_eq_some {ε α : Type} {x : Except ε α} {e : ε}
    (h : exceptErr x = some e) : x = .error e := by
  cases x with
  | error f => simpa [exceptErr] using h
  | ok a => simp [exceptErr] at h

/-- Claim C6 (evaluated at the failing input): assigning a 2-by-3 matrix to
`W` on a two-datum misfit does fail and leaves the stored matrix unchanged,
but the raised error is an IndexError from the malformed format field in the
assert message, which therefore never names the expected and actual
dimensions; a correctly shaped assignment is stored. -/
theorem C6_wrong_shape_message_itself_raises :
    l2setW state2 (.mat [[1, 0, 0], [0, 1, 0]]) =
      .error (.indexError
        "Replacement index 1 out of range for positional args tuple") ∧
    l2setW state2 (.mat [[2, 0], [0, 2]]) =
      .ok { state2 with cachedW := some [[2, 0], [0, 2]] } := by
  constructor
  · exact exceptErr_eq_some (by decide)
  · rfl

/-- Claim C7 (evaluated at the failing input): re-assigning the waveform of a
source that already has one evaluates `self.StepOffWaveform(val)`, whose
attribute lookup fails, so the assignment raises AttributeError instead of
storing a wrapped StepOffWaveform. -/
theorem C7_reassignment_raises_attribute_error :
    setWaveformAttr .magDipole (some { cls := .stepOffWaveform, objId := 0 })
        { cls := .rawWaveform, objId := 1 } =
      .error (.attributeError "object has no attribute StepOffWaveform") := by
  decide

/-- Claim C8 counterexample: a first assignment of a waveform that is not an
instance of the declared `waveformPair` is silently stored on a
`LineCurrent`, whose class attribute `waveform = None` shadows the checking
property; no pairing error is raised. -/
theorem C8_counterexample_lineCurrent_unchecked :
    setWaveformAttr .lineCurrent none { cls := .foreignWaveform, objId := 7 } =
      .ok (some { cls := .foreignWaveform, objId := 7 }) := by
  decide

/-- Claim C8 (amended): sources that inherit the `BaseTDEMSrc` waveform
property unshadowed reject a mismatched first waveform assignment with an
assertion error, while `LineCurrent` stores any value without a check. -/
theorem C8_pairing_check_property_sources_only (c : SrcClass) (val : WaveObj)
    (hc : c ≠ .lineCurrent)
    (hmis : isSubclassOf val.cls (waveformPair c) = false) :
    setWaveformAttr c none val =
      .error (.assertionError
        "Waveform object must be an instance of a %s BaseWaveform class.") ∧
    (∀ w : WaveObj, setWaveformAttr .lineCurrent none w = .ok (some w)) := by
  constructor
  · have hp : waveformIsProperty c = true := by
      cases c <;> simp_all [waveformIsProperty]
    simp [setWaveformAttr, hp, assertMatchesPair, hmis]
  · intro w
    rfl

theorem C8_witness :
    (SrcClass.magDipole ≠ SrcClass.lineCurrent) ∧
    isSubclassOf WaveClass.foreignWaveform (waveformPair .magDipole) = false ∧
    setWaveformAttr .magDipole none { cls := .foreignWaveform, objId := 3 } =
      .error (.assertionError
        "Waveform object must be an instance of a %s BaseWaveform class.") :=
  ⟨by decide, by decide,
   (C8_pairing_check_property_sources_only .magDipole
      { cls := .foreignWaveform, objId := 3 } (by decide) (by decide)).1⟩

/-- Claim C9: evaluating a triangular waveform at any time raises
NotImplementedError with its descriptive message; it never returns an
amplitude. -/
theorem C9_triangular_eval_raises (off t : ℚ) :
    Waveform.eval (.triangular off) t =
      .error (.notImplementedError
        "TriangularWaveform has not been implemented, you should write it!") :=
  rfl

/-- Claim C10: constructing a `TriangularWaveform` with any `offTime` raises
TypeError, because `offTime` is passed positionally to the keyword-only
`BaseWaveform.__init__`; no instance configuration is ever produced. -/
theorem C10_triangular_init_type_error (off : ℚ) :
    triangularWaveformInitCall off =
      .error (.typeError
        "__init__() takes 1 positional argument but 2 were given") := by
  have h2 : ("__init__() takes 1 positional argument but " ++ toString (2 : Nat) ++
      " were given") = "__init__() takes 1 positional argument but 2 were given" := by
    decide
  simp [triangularWaveformInitCall, baseWaveformInitCall, h2]

/-- Claim C5 counterexample: at the spec scenario (`dobs = [1, 2]`, default
`std` and `eps`, residual `[0.1, -0.2]`) the misfit value is not
approximately `2.1998`; it differs from it by more than `0.1`. -/
theorem C5_counterexample_scenario_value :
    ¬ (|scenarioMisfit - 21998 / 10000| ≤ 1 / 10) := by
  intro habs
  have h2 := (abs_le.mp habs).2
  have h1 := scenarioMisfit_lb
  linarith

/-- Claim C5 (amended): the first `W` access builds and caches the diagonal
`1 / (|dobs| std + eps)`; with neither survey `std` nor `eps`, `__init__`
defaults them to `0.05` and `1e-5` times the L2 norm of `dobs`, printing two
warnings; and at the spec scenario the misfit value is approximately
`3.9973` (strictly between 3.997 and 3.998), not 2.1998. -/
theorem C5_default_weighting_and_scenario :
    (∀ {ψ : Type} (st : L2State ℚ ψ), st.cachedW = none →
      Waccess st = (Wdefault st, { st with cachedW := some (Wdefault st) }) ∧
      Wdefault st =
        sdiag (st.survey.dobs.map (fun d => 1 / (|d| * st.std + st.eps)))) ∧
    (l2init l2normR scenarioSurvey scenarioProb =
      .ok (scenarioState,
        ["SimPEG.DataMisfit.l2_DataMisfit assigning default std of 5%",
         "SimPEG.DataMisfit.l2_DataMisfit assigning default eps of 1e-5 * ||dobs||"]) ∧
     scenarioState.std = 5 / 100 ∧
     scenarioState.eps = Real.sqrt 5 * eps_factor) ∧
    (3997 / 1000 < scenarioMisfit ∧ scenarioMisfit < 3998 / 1000) := by
  refine ⟨?_, ⟨scenario_init, rfl, ?_⟩, scenarioMisfit_lb, scenarioMisfit_ub⟩
  · intro ψ st hnone
    constructor
    · simp [Waccess, hnone]
    · rfl
  · show l2normR scenarioSurvey.dobs * eps_factor = Real.sqrt 5 * eps_factor
    rw [scenario_norm]

theorem C5_witness :
    state4.cachedW = none ∧
    Waccess state4 = (Wdefault state4,
      { state4 with cachedW := some (Wdefault state4) }) :=
  ⟨rfl, ((C5_default_weighting_and_scenario.1 state4 rfl).1)⟩

end SimPEG
